import Mathlib

/-!
Verification development for the auth0-assistant0 chat application.

Server side: a shallow embedding of the `POST` route handler that provisions
tools (Calculator, SerpAPI, Gmail, Google Calendar), degrades gracefully when
the Google access token is missing or the Google tool path raises, and streams
an agent response; plus the simpler edge `POST` handler that invokes the agent
with no tools.  External effects are made explicit: the environment variables
are an `Env` record, the `getGoogleAccessToken()` call (and any error raised
while building the Google tools) is a `TokenOutcome` parameter, the message
converter is an abstract function parameter, and the LangChain agent / stream
adapter are opaque — the handler's result records exactly what is handed to
them (tool list, system prompt, message history) together with the console
log lines it emits.

Client side: the `ChatWindow` component's error/loading behaviour as a state
machine.  The mutable pieces of state are `hasError` (the blocking error,
`useState`), the `useChat` status (`ready`/`submitted`/`streaming`/`error`,
the documented status set of `@ai-sdk/react`), and `window.location.href`
assignments.  Discrete observed events (form submission, HTTP response
arrival, stream finish, stream error, the Retry button) drive a step
function translated from the component's handlers; an enabledness predicate
records which events the rendered UI can actually deliver in a given state
(the input and submit button are disabled while `hasError` is set, the Retry
button exists only inside the error banner, and response/finish/error
callbacks belong to an in-flight request).
-/

namespace Assistant0

/-- Incoming chat message as sent by the client (the Vercel AI `Message`
shape used by the route): an id, a role string (`"user"`, `"assistant"`,
`"system"`, ...) and text content. -/
structure Msg where
  id : String
  role : String
  content : String
  deriving DecidableEq, Repr

/-- Parsed JSON request body `\x7b messages: [...] \x7d`.  `messages = none` models a
body whose `messages` field is absent, `null` or `undefined`; the handler
applies `body.messages ?? []`. -/
structure RequestBody where
  messages : Option (List Msg)
  deriving DecidableEq, Repr

/-- The tools the route can hand to the agent, carrying the credentials each
constructor receives in the source (`new SerpAPI(key)`,
`new GmailSearch(\x7b credentials: \x7b accessToken \x7d \x7d)`, and the calendar tools
additionally `calendarId: 'primary'`). -/
inductive Tool
  | calculator
  | serpAPI (apiKey : String)
  | gmailSearch (accessToken : String)
  | gmailCreateDraft (accessToken : String)
  | googleCalendarCreate (accessToken : String) (calendarId : String)
  | googleCalendarView (accessToken : String) (calendarId : String)
  deriving DecidableEq, Repr

/-- The environment variables the handler consults: `process.env.GOOGLE_API_KEY`
and `process.env.SERPAPI_API_KEY` (`none` = unset). -/
structure Env where
  googleApiKey : Option String
  serpApiKey : Option String
  deriving DecidableEq, Repr

/-- Outcome of the extended-capability path inside the handler's inner `try`:
`ok t` models `await getGoogleAccessToken()` resolving (`t = none` is a
null/undefined token), `err m` models an error raised while acquiring the
token or while constructing the Google tools, where `m` is the JS error's
optional `.message` (accessed with `googleError.message?.includes`). -/
inductive TokenOutcome
  | ok (token : Option String)
  | err (message : Option String)
  deriving DecidableEq, Repr

/-- Console log severity used by the handler (`console.error` / `console.warn`
/ `console.log`). -/
inductive LogLevel
  | error
  | warn
  | log
  deriving DecidableEq, Repr

/-- The handler's observable result: either a JSON error response
(`NextResponse.json(\x7b error \x7d, \x7b status \x7d)`) or a streaming response, recorded
as the tool list, the system prompt (`messageModifier`) and the message
history handed to `createReactAgent` / `streamEvents`. -/
inductive HandlerResponse (α : Type)
  | json (error : String) (status : Nat)
  | stream (tools : List Tool) (systemPrompt : String) (history : List α)
  deriving DecidableEq, Repr

/-- Result of one `POST` invocation: the response plus the console lines
logged on the way. -/
structure PostResult (α : Type) where
  response : HandlerResponse α
  logs : List (LogLevel × String)
  deriving DecidableEq, Repr

/-- Projection: the tool list of a streaming response (`[]` for a JSON error
response, which hands nothing to any agent). -/
def toolsOf {α : Type} : HandlerResponse α → List Tool
  | HandlerResponse.json _ _ => []
  | HandlerResponse.stream tools _ _ => tools

/-- Projection: the system prompt of a streaming response. -/
def promptOf {α : Type} : HandlerResponse α → Option String
  | HandlerResponse.json _ _ => none
  | HandlerResponse.stream _ p _ => some p

/-- Projection: the message history handed to the agent, `none` for a JSON
error response (no agent is invoked). -/
def historyOf {α : Type} : HandlerResponse α → Option (List α)
  | HandlerResponse.json _ _ => none
  | HandlerResponse.stream _ _ h => some h

/-- Whether the response is a streaming (agent-invoking) response. -/
def isStreamResponse {α : Type} : HandlerResponse α → Bool
  | HandlerResponse.json _ _ => false
  | HandlerResponse.stream _ _ _ => true

/-- Does the character list start with the given pattern?  Used to embed the
JS `String.prototype.includes` check. -/
def charsStartWith : List Char → List Char → Bool
  | _, [] => true
  | [], _ :: _ => false
  | a :: s, b :: pat => a == b && charsStartWith s pat

/-- Does the character list contain the pattern as a contiguous run? -/
def charsContain : List Char → List Char → Bool
  | [], pat => pat.isEmpty
  | s@(_ :: rest), pat => charsStartWith s pat || charsContain rest pat

/-- Embedding of JS `s.includes(pat)` (substring containment). -/
def strIncludes (s pat : String) : Bool :=
  charsContain s.toList pat.toList

/-- Embedding of `m?.includes(pat)`: optional chaining on a possibly absent
string yields `undefined`, which is falsy. -/
def optIncludes (m : Option String) (pat : String) : Bool :=
  match m with
  | some s => strIncludes s pat
  | none => false

/-- Embedding of the JS string default idiom `v || dflt` (empty string and
`undefined` are falsy). -/
def jsStringOr (v : Option String) (dflt : String) : String :=
  match v with
  | some s => if s == "" then dflt else s
  | none => dflt

/-- The `AGENT_SYSTEM_TEMPLATE` constant of the route (verbatim, including
trailing double spaces and the mojibake sequence before the closing line). -/
def agentSystemTemplate : String :=
  "You are Simple, your friendly personal assistant who keeps it simple. I\x27m here to help with tasks, answer questions, and make your life easier with these powerful tools at my disposal:\n\n1. Calculator: I can solve math problems and perform calculations for you.\n2. Web Search: I can search the internet for current information, news, or facts.\n3. Gmail: I can search your emails and create email drafts.\n4. Google Calendar: I can view your calendar and create new events.\n\nI\x27ll proactively suggest using these tools when they can help with your request.\n\nWhen I need more information to help you effectively:\n- I\x27ll ask specific, clear questions to get the details I need\n- For calendar events, I\x27ll ask for date, time, title, and any other missing information\n- For emails, I\x27ll ask for recipient, subject, and content details if not provided\n- I won\x27t guess critical information that could lead to errors\n\nFormatting Guidelines:\nCalendar Events:  \nDate: YYYY-MM-DD  \nTime: HH:MM - HH:MM  \nEvent Name: Bold and clear  \nLocation: Where it\x27s at  \nSummary: One short sentence\n\nEmails:  \nClean markdown for clarity  \nSummarize long emails  \nKeep it neat and simple\n\nGeneral Tips:  \nShort and sweet  \nConsistent spacing  \nReadability is key!\n\nLet\x27s get startedâ€”I\x27m here to help with a smile!"

/-- The note appended to the template when `getGoogleAccessToken()` resolves
to no token (the two concatenated template literals of the fallback branch). -/
def noAccessTokenNote : String :=
  "\n\nNOTE: Google integrations (Gmail, Calendar) are currently unavailable. You don\x27t have permission to access Google services." ++
  "\n\nTo fix this issue: Please sign out, then sign back in and make sure to allow all requested permissions."

/-- The note appended to the template in the `catch (googleError)` branch,
parameterised by the computed `errorContext`. -/
def googleDegradationNote (errorContext : String) : String :=
  "\n\nNOTE: Google integrations (Gmail, Calendar) are currently unavailable: " ++
  errorContext ++ ". Please try logging out and back in with Google to fix this issue."

/-- The `errorContext` classification of the `catch (googleError)` branch:
insufficient-scope message if the error message contains
`'insufficient authentication scopes'`, else the token-refresh message if it
contains `'token'`, else the generic default. -/
def classifyGoogleError (emsg : Option String) : String :=
  if optIncludes emsg "insufficient authentication scopes" then
    "Insufficient Google API permissions. The app needs additional permissions to access your Google data."
  else if optIncludes emsg "token" then
    "Authentication token error. Please try logging out and back in to refresh your permissions."
  else
    "Google integration error"

/-- The role filter of both route handlers:
`message.role === 'user' || message.role === 'assistant'`. -/
def isChatRole (m : Msg) : Bool :=
  m.role == "user" || m.role == "assistant"

/-- The history both handlers build from the request body:
`(body.messages ?? []).filter(role filter).map(convertVercelMessageToLangChainMessage)`.
The converter lives outside the route and is abstract here. -/
def filteredHistory {α : Type} (conv : Msg → α) (body : RequestBody) : List α :=
  ((body.messages.getD []).filter isChatRole).map conv

/-- The `basicTools` list: a Calculator, plus a SerpAPI tool pushed when
`SERPAPI_API_KEY` is set. -/
def basicToolsOf (env : Env) : List Tool :=
  Tool.calculator ::
    (match env.serpApiKey with
     | some k => [Tool.serpAPI k]
     | none => [])

/-- The warning logged when `SERPAPI_API_KEY` is not set. -/
def serpWarnLogs (env : Env) : List (LogLevel × String) :=
  match env.serpApiKey with
  | some _ => []
  | none => [(LogLevel.warn, "SERPAPI_API_KEY not configured - web search functionality will be unavailable")]

/-- Shallow embedding of the Google-integrated `POST` route handler (the
variant the spec describes): parse/filter/convert the history, fail fast on a
missing `GOOGLE_API_KEY`, build `basicTools`, then hand the agent either the
full tool set (token present), or `basicTools` with a degradation note (token
absent, or any error raised in the Google path). -/
def postHandler {α : Type} (env : Env) (tok : TokenOutcome) (conv : Msg → α)
    (body : RequestBody) : PostResult α :=
  let messages := filteredHistory conv body
  match env.googleApiKey with
  | none =>
      { response := HandlerResponse.json "Server configuration error: Missing Gemini API key" 500
        logs := [(LogLevel.error, "Missing GOOGLE_API_KEY environment variable")] }
  | some _ =>
      match tok with
      | TokenOutcome.ok none =>
          { response := HandlerResponse.stream (basicToolsOf env)
              (agentSystemTemplate ++ noAccessTokenNote) messages
            logs := serpWarnLogs env ++
              [(LogLevel.warn, "No Google access token available - falling back to basic tools")] }
      | TokenOutcome.ok (some accessToken) =>
          { response := HandlerResponse.stream
              (basicToolsOf env ++
                [Tool.gmailSearch accessToken, Tool.gmailCreateDraft accessToken,
                 Tool.googleCalendarCreate accessToken "primary",
                 Tool.googleCalendarView accessToken "primary"])
              agentSystemTemplate messages
            logs := serpWarnLogs env ++
              [(LogLevel.log, "Successfully retrieved Google access token, initializing tools"),
               (LogLevel.log, "Successfully created Google tools, creating agent")] }
      | TokenOutcome.err emsg =>
          { response := HandlerResponse.stream (basicToolsOf env)
              (agentSystemTemplate ++ googleDegradationNote (classifyGoogleError emsg)) messages
            logs := serpWarnLogs env ++
              [(LogLevel.error, "Google API access error:"),
               (LogLevel.log, "Falling back to LLM without Google integrations")] }

/-- The `AGENT_SYSTEM_TEMPLATE` of the tool-less edge route handler. -/
def edgeTemplate : String :=
  "You are a personal assistant named Assistant0. You are a helpful assistant that can answer questions and help with tasks. You have access to a set of tools, use the tools as needed to answer the user\x27s question."

/-- Shallow embedding of the edge `POST` route handler: same history
filtering, no tools, fixed template. -/
def postHandlerEdge {α : Type} (conv : Msg → α) (body : RequestBody) : HandlerResponse α :=
  HandlerResponse.stream [] edgeTemplate (filteredHistory conv body)

/-- The `useChat` status values documented by `@ai-sdk/react`: `ready` at
rest, `submitted` after the request is sent and before the first response
chunk, `streaming` while chunks arrive, `error` after a failure. -/
inductive ChatStatus
  | ready
  | submitted
  | streaming
  | error
  deriving DecidableEq, Repr

/-- The client state observed by `ChatWindow`: the blocking error
(`hasError` useState), the `useChat` status, and the last assignment to
`window.location.href` (navigation target), if any. -/
structure ClientState where
  hasError : Option String
  status : ChatStatus
  windowLocation : Option String
  deriving DecidableEq, Repr

/-- The component's initial state: no error, chat at rest, no navigation. -/
def initialClientState : ClientState :=
  { hasError := none, status := ChatStatus.ready, windowLocation := none }

/-- How the response body behaves under `response.json()` in `onResponse`:
`parsed ef` is a body that parses to an object whose `error` field is the
string `ef` (or absent for `none`); `unparseable` is a body for which
`response.json()` (or the subsequent field access) rejects, landing in the
`.catch` branch. -/
inductive BodyParse
  | parsed (errorField : Option String)
  | unparseable
  deriving DecidableEq, Repr

/-- JS `response.ok`: status in the 2xx range. -/
def responseOk (status : Nat) : Bool :=
  200 ≤ status && status < 300

/-- The `hasError` value `onResponse` establishes: cleared on a success
status; on a non-ok status, `new Error(data.error || 'Unknown error occurred')`
when the body parses, `new Error('Request failed with status N')` when it
does not. -/
def onResponseUpdate (status : Nat) (body : BodyParse) : Option String :=
  if responseOk status then none
  else
    match body with
    | BodyParse.parsed ef => some (jsStringOr ef "Unknown error occurred")
    | BodyParse.unparseable => some ("Request failed with status " ++ toString status)

/-- Definition following the spec's words for the (amended) client error
message contract, to be compared with `onResponseUpdate`: success clears the
error; a parsed body with a non-empty `error` string uses that string, a
parsed body with an empty or absent `error` field falls back to
`"Unknown error occurred"`, and an unparseable body synthesizes a message
from the status code. -/
def specClientErrorMessage (status : Nat) (body : BodyParse) : Option String :=
  if responseOk status then none
  else
    match body with
    | BodyParse.parsed (some s) => if s = "" then some "Unknown error occurred" else some s
    | BodyParse.parsed none => some "Unknown error occurred"
    | BodyParse.unparseable => some ("Request failed with status " ++ toString status)

/-- The discrete events driving the client state machine: a form submission,
the arrival of an HTTP response (status plus body behaviour), the stream
finishing (`onFinish`), a stream/transport error (`onError`), and the Retry
button (`retryConnection`). -/
inductive ClientEvent
  | submit
  | responseEvt (status : Nat) (body : BodyParse)
  | finishEvt
  | errorEvt (message : String)
  | retry
  deriving DecidableEq, Repr

/-- The component's loading predicate: `chat.status === 'streaming'`. -/
def isChatLoading (s : ClientState) : Bool :=
  s.status == ChatStatus.streaming

/-- One step of the client state machine, translated from the component's
handlers: `sendMessage` returns early while loading, else clears the error
and submits; `onResponse` installs `onResponseUpdate` and the stream starts
(success) or the request ends in error; `onFinish` clears the error;
`onError` sets it; `retryConnection` clears the error and navigates to the
logout endpoint. -/
def clientStep (s : ClientState) : ClientEvent → ClientState
  | ClientEvent.submit =>
      if isChatLoading s then s
      else { s with hasError := none, status := ChatStatus.submitted }
  | ClientEvent.responseEvt st body =>
      { s with hasError := onResponseUpdate st body
               status := if responseOk st then ChatStatus.streaming else ChatStatus.error }
  | ClientEvent.finishEvt => { s with hasError := none, status := ChatStatus.ready }
  | ClientEvent.errorEvt m => { s with hasError := some m, status := ChatStatus.error }
  | ClientEvent.retry => { s with hasError := none, windowLocation := some "/auth/logout?returnTo=/" }

/-- Which events the rendered component can deliver in a given state: the
text input and submit button are disabled while `hasError` is set, so a
submission can only occur with no blocking error; response, finish and error
callbacks belong to an in-flight request (response arrival requires a
submitted request, finish requires an active stream, an error can strike
either phase); the Retry button is rendered only inside the error banner. -/
def eventEnabled (s : ClientState) : ClientEvent → Bool
  | ClientEvent.submit => s.hasError.isNone
  | ClientEvent.responseEvt _ _ => s.status == ChatStatus.submitted
  | ClientEvent.finishEvt => s.status == ChatStatus.streaming
  | ClientEvent.errorEvt _ => s.status == ChatStatus.submitted || s.status == ChatStatus.streaming
  | ClientEvent.retry => s.hasError.isSome

/-- Whether a submission event in state `s` causes `chat.handleSubmit` to be
called (i.e. produces an HTTP request): the form is enabled (no blocking
error) and `sendMessage` does not return early on the loading guard. -/
def submissionProducesRequest (s : ClientState) : Bool :=
  s.hasError.isNone && !isChatLoading s

/-- Whether a request is in flight: submitted or already streaming. -/
def requestInFlight (s : ClientState) : Bool :=
  s.status == ChatStatus.submitted || s.status == ChatStatus.streaming

/-- States of the client reachable from the initial state under events the
rendered UI can deliver. -/
inductive Reachable : ClientState → Prop
  | init : Reachable initialClientState
  | step {s : ClientState} {e : ClientEvent} :
      Reachable s → eventEnabled s e = true → Reachable (clientStep s e)

/-- Helper: `isChatRole` matches exactly the user/assistant roles. -/
theorem isChatRole_iff (m : Msg) :
    isChatRole m = true ↔ (m.role = "user" ∨ m.role = "assistant") := by
  simp [isChatRole]

/-- Helper: the Calculator heads every `basicTools` list. -/
theorem calculator_mem_basicToolsOf (env : Env) : Tool.calculator ∈ basicToolsOf env := by
  unfold basicToolsOf
  exact List.mem_cons_self _ _

/-- Helper: `classifyGoogleError` only ever returns one of three strings. -/
theorem classifyGoogleError_cases (emsg : Option String) :
    classifyGoogleError emsg =
        "Insufficient Google API permissions. The app needs additional permissions to access your Google data." ∨
      classifyGoogleError emsg =
        "Authentication token error. Please try logging out and back in to refresh your permissions." ∨
      classifyGoogleError emsg = "Google integration error" := by
  unfold classifyGoogleError
  by_cases h1 : optIncludes emsg "insufficient authentication scopes" = true
  · simp [h1]
  · by_cases h2 : optIncludes emsg "token" = true
    · simp [h1, h2]
    · simp [h1, h2]

/-- Helper: with the Google key set, the handler always streams, its tool set
contains the Calculator, and the history is the filtered one — shared shape
fact about `postHandler`. -/
theorem postHandler_stream_shape {α : Type} (env : Env) (tok : TokenOutcome)
    (conv : Msg → α) (body : RequestBody) (hk : env.googleApiKey.isSome = true) :
    isStreamResponse (postHandler env tok conv body).response = true ∧
    Tool.calculator ∈ toolsOf (postHandler env tok conv body).response ∧
    historyOf (postHandler env tok conv body).response = some (filteredHistory conv body) := by
  cases hgk : env.googleApiKey with
  | none => rw [hgk] at hk; cases hk
  | some g =>
    cases tok with
    | ok t =>
      cases t with
      | none =>
        refine ⟨?_, ?_, ?_⟩ <;>
          simp [postHandler, hgk, isStreamResponse, toolsOf, historyOf, calculator_mem_basicToolsOf]
      | some accessToken =>
        refine ⟨?_, ?_, ?_⟩ <;>
          simp [postHandler, hgk, isStreamResponse, toolsOf, historyOf, calculator_mem_basicToolsOf]
    | err emsg =>
      refine ⟨?_, ?_, ?_⟩ <;>
        simp [postHandler, hgk, isStreamResponse, toolsOf, historyOf, calculator_mem_basicToolsOf]

/-- C1: for every credential outcome (usable token, absent token, or an error
raised while acquiring the token or building the Google tools), given the
mandatory model credential, the handler returns a streaming response whose
tool set contains at least the Calculator, with the filtered history — no
failure in the Google path escapes the provisioning boundary. -/
theorem capability_provisioning_total_base_tools {α : Type} (env : Env) (tok : TokenOutcome)
    (conv : Msg → α) (body : RequestBody) (hk : env.googleApiKey.isSome = true) :
    isStreamResponse (postHandler env tok conv body).response = true ∧
    Tool.calculator ∈ toolsOf (postHandler env tok conv body).response ∧
    historyOf (postHandler env tok conv body).response = some (filteredHistory conv body) :=
  postHandler_stream_shape env tok conv body hk

/-- C1 witness: concrete instance — Google key set, no SerpAPI key, the
Google path raises an error with no message. -/
theorem capability_provisioning_total_base_tools_witness :
    isStreamResponse (postHandler ⟨some "gk", none⟩ (TokenOutcome.err none) (fun m : Msg => m) ⟨none⟩).response = true ∧
    Tool.calculator ∈ toolsOf (postHandler ⟨some "gk", none⟩ (TokenOutcome.err none) (fun m : Msg => m) ⟨none⟩).response ∧
    historyOf (postHandler ⟨some "gk", none⟩ (TokenOutcome.err none) (fun m : Msg => m) ⟨none⟩).response
      = some (filteredHistory (fun m : Msg => m) ⟨none⟩) :=
  capability_provisioning_total_base_tools ⟨some "gk", none⟩ (TokenOutcome.err none)
    (fun m : Msg => m) ⟨none⟩ rfl

/-- C2: with `GOOGLE_API_KEY` unset the handler short-circuits with a JSON
HTTP 500 response whose body is exactly the missing-Gemini-key error, and no
streaming response is produced. -/
theorem missing_gemini_key_short_circuit {α : Type} (env : Env) (tok : TokenOutcome)
    (conv : Msg → α) (body : RequestBody) (hk : env.googleApiKey = none) :
    (postHandler env tok conv body).response
      = HandlerResponse.json "Server configuration error: Missing Gemini API key" 500 ∧
    isStreamResponse (postHandler env tok conv body).response = false := by
  refine ⟨?_, ?_⟩ <;> simp [postHandler, hk, isStreamResponse]

/-- C2 witness: concrete instance with the key unset. -/
theorem missing_gemini_key_short_circuit_witness :
    (postHandler ⟨none, some "sk"⟩ (TokenOutcome.ok (some "t")) (fun m : Msg => m) ⟨none⟩).response
      = HandlerResponse.json "Server configuration error: Missing Gemini API key" 500 ∧
    isStreamResponse (postHandler ⟨none, some "sk"⟩ (TokenOutcome.ok (some "t")) (fun m : Msg => m) ⟨none⟩).response = false :=
  missing_gemini_key_short_circuit ⟨none, some "sk"⟩ (TokenOutcome.ok (some "t"))
    (fun m : Msg => m) ⟨none⟩ rfl

/-- C4: the history handed to the agent — by the Google handler (whenever it
invokes an agent at all, i.e. the key is set) and by the edge handler — is
exactly the image of the role-filtered message list: the filtered list is a
sublist of the input (original relative order), every retained message has
role user or assistant, and every user/assistant message of the input is
retained; in particular messages of any other role are never replayed. -/
theorem history_filters_to_chat_roles {α : Type} (env : Env) (tok : TokenOutcome)
    (conv : Msg → α) (body : RequestBody) (hk : env.googleApiKey.isSome = true) :
    historyOf (postHandler env tok conv body).response
      = some (((body.messages.getD []).filter isChatRole).map conv) ∧
    historyOf (postHandlerEdge conv body)
      = some (((body.messages.getD []).filter isChatRole).map conv) ∧
    List.Sublist ((body.messages.getD []).filter isChatRole) (body.messages.getD []) ∧
    (∀ m, m ∈ (body.messages.getD []).filter isChatRole → (m.role = "user" ∨ m.role = "assistant")) ∧
    (∀ m, m ∈ body.messages.getD [] → (m.role = "user" ∨ m.role = "assistant") →
      m ∈ (body.messages.getD []).filter isChatRole) := by
  refine ⟨?_, ?_, ?_, ?_, ?_⟩
  · exact (postHandler_stream_shape env tok conv body hk).2.2
  · rfl
  · exact List.filter_sublist _
  · intro m hm
    exact (isChatRole_iff m).mp (List.of_mem_filter hm)
  · intro m hm hrole
    exact List.mem_filter.mpr ⟨hm, (isChatRole_iff m).mpr hrole⟩

/-- C4 witness: concrete instance — a system message between a user and an
assistant message is dropped, the rest kept in order. -/
theorem history_filters_to_chat_roles_witness :
    historyOf (postHandler ⟨some "gk", none⟩ (TokenOutcome.ok none) (fun m : Msg => m)
        ⟨some [⟨"1", "user", "hi"⟩, ⟨"2", "system", "internal"⟩, ⟨"3", "assistant", "hello"⟩]⟩).response
      = some [⟨"1", "user", "hi"⟩, ⟨"3", "assistant", "hello"⟩] :=
  (history_filters_to_chat_roles ⟨some "gk", none⟩ (TokenOutcome.ok none) (fun m : Msg => m)
    ⟨some [⟨"1", "user", "hi"⟩, ⟨"2", "system", "internal"⟩, ⟨"3", "assistant", "hello"⟩]⟩ rfl).1

/-- C9: model credential present, `SERPAPI_API_KEY` absent, token usable —
the tool set is exactly Calculator plus the four Google tools (no search
tool), the system prompt is the unmodified template (no degradation note),
the response streams, and the SerpAPI warning is logged. -/
theorem serpapi_absent_omits_search_tool {α : Type} (env : Env) (gk accessToken : String)
    (conv : Msg → α) (body : RequestBody)
    (hk : env.googleApiKey = some gk) (hs : env.serpApiKey = none) :
    (postHandler env (TokenOutcome.ok (some accessToken)) conv body).response
      = HandlerResponse.stream
          [Tool.calculator, Tool.gmailSearch accessToken, Tool.gmailCreateDraft accessToken,
           Tool.googleCalendarCreate accessToken "primary", Tool.googleCalendarView accessToken "primary"]
          agentSystemTemplate (filteredHistory conv body) ∧
    (LogLevel.warn, "SERPAPI_API_KEY not configured - web search functionality will be unavailable")
      ∈ (postHandler env (TokenOutcome.ok (some accessToken)) conv body).logs := by
  refine ⟨?_, ?_⟩ <;> simp [postHandler, hk, hs, basicToolsOf, serpWarnLogs]

/-- C9 witness: concrete instance. -/
theorem serpapi_absent_omits_search_tool_witness :
    (postHandler ⟨some "gk", none⟩ (TokenOutcome.ok (some "tok123")) (fun m : Msg => m) ⟨none⟩).response
      = HandlerResponse.stream
          [Tool.calculator, Tool.gmailSearch "tok123", Tool.gmailCreateDraft "tok123",
           Tool.googleCalendarCreate "tok123" "primary", Tool.googleCalendarView "tok123" "primary"]
          agentSystemTemplate (filteredHistory (fun m : Msg => m) ⟨none⟩) ∧
    (LogLevel.warn, "SERPAPI_API_KEY not configured - web search functionality will be unavailable")
      ∈ (postHandler ⟨some "gk", none⟩ (TokenOutcome.ok (some "tok123")) (fun m : Msg => m) ⟨none⟩).logs :=
  serpapi_absent_omits_search_tool ⟨some "gk", none⟩ "gk" "tok123" (fun m : Msg => m) ⟨none⟩ rfl rfl

/-- C10: a body whose `messages` field is absent/null yields the empty
history and both handlers proceed to a streaming agent invocation rather
than an error response. -/
theorem missing_messages_field_empty_history {α : Type} (env : Env) (tok : TokenOutcome)
    (conv : Msg → α) (hk : env.googleApiKey.isSome = true) :
    isStreamResponse (postHandler env tok conv ⟨none⟩).response = true ∧
    historyOf (postHandler env tok conv ⟨none⟩).response = some ([] : List α) ∧
    postHandlerEdge conv ⟨none⟩ = HandlerResponse.stream [] edgeTemplate ([] : List α) := by
  refine ⟨(postHandler_stream_shape env tok conv ⟨none⟩ hk).1, ?_, rfl⟩
  exact (postHandler_stream_shape env tok conv ⟨none⟩ hk).2.2

/-- C10 witness: concrete instance. -/
theorem missing_messages_field_empty_history_witness :
    isStreamResponse (postHandler ⟨some "gk", some "sk"⟩ (TokenOutcome.ok (some "t")) (fun m : Msg => m) ⟨none⟩).response = true ∧
    historyOf (postHandler ⟨some "gk", some "sk"⟩ (TokenOutcome.ok (some "t")) (fun m : Msg => m) ⟨none⟩).response = some ([] : List Msg) ∧
    postHandlerEdge (fun m : Msg => m) ⟨none⟩ = HandlerResponse.stream [] edgeTemplate ([] : List Msg) :=
  missing_messages_field_empty_history ⟨some "gk", some "sk"⟩ (TokenOutcome.ok (some "t"))
    (fun m : Msg => m) rfl

/-- Helper: the degradation note of the catch branch names Gmail and
Calendar and carries the sign-out/sign-in remediation, whichever of the
three error contexts is spliced in. -/
theorem googleDegradationNote_mentions (emsg : Option String) :
    strIncludes (googleDegradationNote (classifyGoogleError emsg)) "Gmail" = true ∧
    strIncludes (googleDegradationNote (classifyGoogleError emsg)) "Calendar" = true ∧
    strIncludes (googleDegradationNote (classifyGoogleError emsg)) "logging out and back in" = true := by
  rcases classifyGoogleError_cases emsg with h | h | h <;> rw [h] <;>
    exact ⟨by decide, by decide, by decide⟩

/-- C3: when the Google path raises, the handler still streams with the base
tool set and the template extended by a degradation note built from a
three-way classification of the error message — the insufficient-scope hint
when the message contains `'insufficient authentication scopes'`, else the
token-refresh hint when it contains `'token'`, else the generic
`"Google integration error"` — and the note names Gmail and Calendar and the
sign-out/sign-in remediation. -/
theorem google_error_degradation_classified {α : Type} (env : Env) (emsg : Option String)
    (conv : Msg → α) (body : RequestBody) (hk : env.googleApiKey.isSome = true) :
    (postHandler env (TokenOutcome.err emsg) conv body).response
      = HandlerResponse.stream (basicToolsOf env)
          (agentSystemTemplate ++ googleDegradationNote (classifyGoogleError emsg))
          (filteredHistory conv body) ∧
    (optIncludes emsg "insufficient authentication scopes" = true →
      classifyGoogleError emsg =
        "Insufficient Google API permissions. The app needs additional permissions to access your Google data.") ∧
    (optIncludes emsg "insufficient authentication scopes" = false →
      optIncludes emsg "token" = true →
      classifyGoogleError emsg =
        "Authentication token error. Please try logging out and back in to refresh your permissions.") ∧
    (optIncludes emsg "insufficient authentication scopes" = false →
      optIncludes emsg "token" = false →
      classifyGoogleError emsg = "Google integration error") ∧
    strIncludes (googleDegradationNote (classifyGoogleError emsg)) "Gmail" = true ∧
    strIncludes (googleDegradationNote (classifyGoogleError emsg)) "Calendar" = true ∧
    strIncludes (googleDegradationNote (classifyGoogleError emsg)) "logging out and back in" = true := by
  obtain ⟨hg, hc, hr⟩ := googleDegradationNote_mentions emsg
  cases hgk : env.googleApiKey with
  | none => rw [hgk] at hk; cases hk
  | some g =>
    refine ⟨by simp [postHandler, hgk], ?_, ?_, ?_, hg, hc, hr⟩
    · intro h1; simp [classifyGoogleError, h1]
    · intro h1 h2; simp [classifyGoogleError, h1, h2]
    · intro h1 h2; simp [classifyGoogleError, h1, h2]

/-- C3 witness: concrete instance — an error whose message mentions an
expired token takes the token-refresh hint; the response equality and note
facts are instantiated at that input. -/
theorem google_error_degradation_classified_witness :
    (postHandler ⟨some "gk", none⟩ (TokenOutcome.err (some "invalid token: expired")) (fun m : Msg => m) ⟨none⟩).response
      = HandlerResponse.stream (basicToolsOf ⟨some "gk", none⟩)
          (agentSystemTemplate ++
            googleDegradationNote (classifyGoogleError (some "invalid token: expired")))
          (filteredHistory (fun m : Msg => m) ⟨none⟩) ∧
    classifyGoogleError (some "invalid token: expired")
      = "Authentication token error. Please try logging out and back in to refresh your permissions." ∧
    strIncludes (googleDegradationNote (classifyGoogleError (some "invalid token: expired"))) "Gmail" = true :=
  ⟨(google_error_degradation_classified ⟨some "gk", none⟩ (some "invalid token: expired")
      (fun m : Msg => m) ⟨none⟩ rfl).1,
   (google_error_degradation_classified ⟨some "gk", none⟩ (some "invalid token: expired")
      (fun m : Msg => m) ⟨none⟩ rfl).2.2.1 (by decide) (by decide),
   (google_error_degradation_classified ⟨some "gk", none⟩ (some "invalid token: expired")
      (fun m : Msg => m) ⟨none⟩ rfl).2.2.2.2.1⟩

/-- Helper: in every reachable client state, a set blocking error implies
the chat status is `error` — errors are only installed by events that end
the request. -/
theorem reachable_error_status {s : ClientState} (h : Reachable s) :
    ∀ msg, s.hasError = some msg → s.status = ChatStatus.error := by
  induction h with
  | init => intro msg hmsg; simp [initialClientState] at hmsg
  | @step t e hr hen ih =>
      intro msg hmsg
      cases e with
      | submit =>
          cases hl : isChatLoading t with
          | true =>
              simp [clientStep, hl] at hmsg ⊢
              exact ih msg hmsg
          | false => simp [clientStep, hl] at hmsg
      | responseEvt st body =>
          cases hok : responseOk st with
          | true => simp [clientStep, onResponseUpdate, hok] at hmsg
          | false => simp [clientStep, hok]
      | finishEvt => simp [clientStep] at hmsg
      | errorEvt m => simp [clientStep]
      | retry => simp [clientStep] at hmsg


/-- C6: from a reachable blocked state, the only enabled event whose step
clears the blocking error is the Retry action, and its step also assigns the
session-refresh/logout endpoint to `window.location.href` rather than merely
clearing local state. -/
theorem blocked_cleared_only_by_retry (s : ClientState) (msg : String) (e : ClientEvent)
    (hr : Reachable s) (he : s.hasError = some msg) (hen : eventEnabled s e = true)
    (hclear : (clientStep s e).hasError = none) :
    e = ClientEvent.retry ∧
    (clientStep s e).windowLocation = some "/auth/logout?returnTo=/" := by
  have hstatus := reachable_error_status hr msg he
  cases e with
  | submit => simp [eventEnabled, he] at hen
  | responseEvt st body => simp [eventEnabled, hstatus] at hen
  | finishEvt => simp [eventEnabled, hstatus] at hen
  | errorEvt m => simp [clientStep] at hclear
  | retry => exact ⟨rfl, by simp [clientStep]⟩

/-- C6 witness: the blocked state reached by submitting and then observing a
stream error; the Retry event clears it and navigates to the logout
endpoint. -/
theorem blocked_cleared_only_by_retry_witness :
    ClientEvent.retry = ClientEvent.retry ∧
    (clientStep (clientStep (clientStep initialClientState ClientEvent.submit)
        (ClientEvent.errorEvt "boom")) ClientEvent.retry).windowLocation
      = some "/auth/logout?returnTo=/" :=
  blocked_cleared_only_by_retry
    (clientStep (clientStep initialClientState ClientEvent.submit) (ClientEvent.errorEvt "boom"))
    "boom" ClientEvent.retry
    (Reachable.step (Reachable.step Reachable.init (by decide)) (by decide))
    (by decide) (by decide) (by decide)

/-- C7: a submission while the loading predicate holds produces no request
(and leaves the state unchanged), and a submission while the blocking error
is set produces no request at all (the form is not even enabled). -/
theorem submission_noop_when_loading_or_blocked (s : ClientState) :
    (isChatLoading s = true →
      submissionProducesRequest s = false ∧ clientStep s ClientEvent.submit = s) ∧
    (∀ msg, s.hasError = some msg →
      submissionProducesRequest s = false ∧ eventEnabled s ClientEvent.submit = false) := by
  constructor
  · intro hl
    refine ⟨?_, ?_⟩
    · simp [submissionProducesRequest, hl]
    · simp [clientStep, hl]
  · intro msg hmsg
    refine ⟨?_, ?_⟩
    · simp [submissionProducesRequest, hmsg]
    · simp [eventEnabled, hmsg]

/-- C7 witness: a streaming state and a blocked state, each refusing to
produce a request. -/
theorem submission_noop_when_loading_or_blocked_witness :
    submissionProducesRequest ⟨none, ChatStatus.streaming, none⟩ = false ∧
    submissionProducesRequest ⟨some "boom", ChatStatus.error, none⟩ = false :=
  ⟨((submission_noop_when_loading_or_blocked ⟨none, ChatStatus.streaming, none⟩).1 rfl).1,
   ((submission_noop_when_loading_or_blocked ⟨some "boom", ChatStatus.error, none⟩).2 "boom" rfl).1⟩

/-- C5 counterexample: a 403 response whose body parses as JSON with an
`error` field holding the empty string — the claim says the blocking error
message equals that field's value, but the code's `data.error || default`
treats the empty string as falsy and installs `"Unknown error occurred"`
instead. -/
theorem client_error_message_empty_field_counterexample :
    onResponseUpdate 403 (BodyParse.parsed (some ""))
      = some "Unknown error occurred" ∧
    onResponseUpdate 403 (BodyParse.parsed (some "")) ≠ some "" := by
  refine ⟨by decide, by decide⟩

/-- C5 (amended): the client error update agrees with the spec-side
description once the falsy fallback is accounted for — success clears any
prior error; a non-ok response with a parsed body uses the `error` field when
it is a non-empty string and `"Unknown error occurred"` when it is empty or
absent; an unparseable body synthesizes `"Request failed with status N"`;
and the installed error is independent of the previous error state. -/
theorem client_error_message_refines_spec (status : Nat) (body : BodyParse) (s : ClientState) :
    onResponseUpdate status body = specClientErrorMessage status body ∧
    (responseOk status = true →
      (clientStep s (ClientEvent.responseEvt status body)).hasError = none) ∧
    (clientStep s (ClientEvent.responseEvt status body)).hasError = onResponseUpdate status body := by
  refine ⟨?_, ?_, ?_⟩
  · cases hok : responseOk status with
    | true => simp [onResponseUpdate, specClientErrorMessage, hok]
    | false =>
        cases body with
        | parsed ef =>
            cases ef with
            | none => simp [onResponseUpdate, specClientErrorMessage, hok, jsStringOr]
            | some str =>
                cases hstr : str == "" with
                | true =>
                    have : str = "" := by simpa using hstr
                    simp [onResponseUpdate, specClientErrorMessage, hok, jsStringOr, hstr, this]
                | false =>
                    have : ¬ str = "" := by simpa using hstr
                    simp [onResponseUpdate, specClientErrorMessage, hok, jsStringOr, hstr, this]
        | unparseable => simp [onResponseUpdate, specClientErrorMessage, hok]
  · intro hok
    simp [clientStep, onResponseUpdate, hok]
  · simp [clientStep]

/-- C5 (amended) witness: a 401 with a structured body installs that
message; a 200 clears a previously set error. -/
theorem client_error_message_refines_spec_witness :
    onResponseUpdate 401 (BodyParse.parsed (some "forbidden"))
      = specClientErrorMessage 401 (BodyParse.parsed (some "forbidden")) ∧
    (clientStep ⟨some "old", ChatStatus.error, none⟩
        (ClientEvent.responseEvt 200 BodyParse.unparseable)).hasError = none :=
  ⟨(client_error_message_refines_spec 401 (BodyParse.parsed (some "forbidden"))
      initialClientState).1,
   (client_error_message_refines_spec 200 BodyParse.unparseable
      ⟨some "old", ChatStatus.error, none⟩).2.1 rfl⟩

/-- C8 counterexample: right after a submission (a request between
submission and any completion or error), the `submitted` phase has not yet
delivered the first response chunk, so `chat.status` is not `'streaming'`
and the loading predicate is false — refuting "true exactly during the
interval from submission until completion or error". -/
theorem loading_false_while_submitted_counterexample :
    Reachable (clientStep initialClientState ClientEvent.submit) ∧
    requestInFlight (clientStep initialClientState ClientEvent.submit) = true ∧
    isChatLoading (clientStep initialClientState ClientEvent.submit) = false ∧
    ¬ (isChatLoading (clientStep initialClientState ClientEvent.submit) = true ↔
        requestInFlight (clientStep initialClientState ClientEvent.submit) = true) :=
  ⟨Reachable.step Reachable.init (by decide), by decide, by decide, by decide⟩

/-- C8 (amended): the loading predicate is true exactly while the chat
status is `streaming` — from the arrival of a successful response until the
stream finishes or errors; it is false during the `submitted` phase. -/
theorem loading_iff_streaming (s : ClientState) (st : Nat) (body : BodyParse) (m : String) :
    (isChatLoading s = true ↔ s.status = ChatStatus.streaming) ∧
    (responseOk st = true →
      isChatLoading (clientStep s (ClientEvent.responseEvt st body)) = true) ∧
    isChatLoading (clientStep s ClientEvent.finishEvt) = false ∧
    isChatLoading (clientStep s (ClientEvent.errorEvt m)) = false := by
  refine ⟨?_, ?_, ?_, ?_⟩
  · simp [isChatLoading]
  · intro hok; simp [clientStep, isChatLoading, hok]
  · simp [clientStep, isChatLoading]
  · simp [clientStep, isChatLoading]

/-- C8 (amended) witness: a streaming state is loading; after a 200
response the state is loading; after finish it is not. -/
theorem loading_iff_streaming_witness :
    isChatLoading ⟨none, ChatStatus.streaming, none⟩ = true ∧
    isChatLoading (clientStep initialClientState (ClientEvent.responseEvt 200 BodyParse.unparseable)) = true ∧
    isChatLoading (clientStep ⟨none, ChatStatus.streaming, none⟩ ClientEvent.finishEvt) = false :=
  ⟨(loading_iff_streaming ⟨none, ChatStatus.streaming, none⟩ 200 BodyParse.unparseable "m").1.mpr rfl,
   (loading_iff_streaming initialClientState 200 BodyParse.unparseable "m").2.1 rfl,
   (loading_iff_streaming ⟨none, ChatStatus.streaming, none⟩ 200 BodyParse.unparseable "m").2.2.1⟩

end Assistant0
